import Mathlib

/-!
Shallow embedding of the concurrent dispatch core of the go-test-task HTTP
service (source: `src/main.go`, the canonical variant with
cancel-on-first-error).  Concurrency is modelled by making the
nondeterministic choices explicit inputs: the arrival order of fetch results
at the coordinator's select loop (`CollectEvent` lists), the per-worker
draw/quit schedules (`WorkerEvent` lists), and the branch Go's `select`
picks when several cases are ready (`GateBranch`).  JSON serialisation
follows Go's `encoding/json` on the concrete structs involved, byte slices
encoded in standard base64, `nil` slices as `null`.
-/

namespace GoTestTask

/-- `MaxUrlCount`: maximum number of urls allowed in one user request. -/
def MaxUrlCount : Nat := 20

/-- `MaxSimultaneousClients`: maximum number of simultaneously served requests. -/
def MaxSimultaneousClients : Nat := 100

/-- `MaxSimultaneousUrlRequests`: maximum number of simultaneously queried
urls within one user request. -/
def MaxSimultaneousUrlRequests : Nat := 4

/-- `UrlResult`: one url paired with the fetched body bytes and the fetch
error (`none` on success), mirroring the Go struct (whose unexported `error`
field is skipped by `json.Marshal`). -/
structure UrlResult where
  url : String
  response : List Nat
  error : Option String
deriving DecidableEq, Repr

/-- `ResultToUser`: the final answer marshalled back to the client.
`Responses = []` plays the role of Go's `nil` slice (the handler never
produces a non-nil empty slice), which `json.Marshal` renders as `null`. -/
structure ResultToUser where
  Error : String
  Responses : List UrlResult
deriving DecidableEq, Repr

/-- Lowercase hexadecimal digit, as used by `encoding/json` for control
characters. -/
def hexDigit (n : Nat) : Char :=
  if n < 10 then Char.ofNat (48 + n) else Char.ofNat (87 + n)

/-- One character of a Go JSON string literal: `encoding/json` escapes the
quote and backslash, keeps the `\n`, `\r`, `\t` shorthands, HTML-escapes
angle brackets and the ampersand, and writes other control characters as
lowercase unicode escapes. -/
def jsonEscapeChar (c : Char) : String :=
  if c = '"' then "\\\""
  else if c = '\\' then "\\\\"
  else if c = '\n' then "\\n"
  else if c = '\r' then "\\r"
  else if c = '\t' then "\\t"
  else if c = '<' then "\\u003c"
  else if c = '>' then "\\u003e"
  else if c = '&' then "\\u0026"
  else if c.toNat < 32 then
    "\\u00" ++ String.mk [hexDigit (c.toNat / 16), hexDigit (c.toNat % 16)]
  else String.singleton c

/-- A Go JSON string literal for `s` (quotes included). -/
def jsonString (s : String) : String :=
  "\"" ++ String.join (s.data.map jsonEscapeChar) ++ "\""

/-- Character `n` (with `n < 64`) of the standard base64 alphabet. -/
def b64c (n : Nat) : Char :=
  if n < 26 then Char.ofNat (65 + n)
  else if n < 52 then Char.ofNat (97 + (n - 26))
  else if n < 62 then Char.ofNat (48 + (n - 52))
  else if n = 62 then '+'
  else '/'

/-- Standard base64 with padding, as `json.Marshal` uses for `[]byte`.
Input bytes are reduced mod 256. -/
def base64 : List Nat → String
  | [] => ""
  | [a] =>
    let a := a % 256
    String.mk [b64c (a / 4), b64c (a % 4 * 16), '=', '=']
  | [a, b] =>
    let a := a % 256
    let b := b % 256
    String.mk [b64c (a / 4), b64c (a % 4 * 16 + b / 16), b64c (b % 16 * 4), '=']
  | a :: b :: c :: rest =>
    let a := a % 256
    let b := b % 256
    let c := c % 256
    String.mk [b64c (a / 4), b64c (a % 4 * 16 + b / 16),
               b64c (b % 16 * 4 + c / 64), b64c (c % 64)] ++ base64 rest

/-- `json.Marshal` of one `UrlResult`: the unexported `error` field is
omitted; the byte slice is base64-encoded (a successful `ReadAll` always
yields a non-nil slice, so it is always quoted, never `null`). -/
def marshalUrlResult (r : UrlResult) : String :=
  "\x7b\"url\":" ++ jsonString r.url ++ ",\"response\":\"" ++ base64 r.response ++ "\"\x7d"

/-- `json.Marshal` of the responses slice: Go's `nil` slice (modelled `[]`)
becomes `null`, otherwise a JSON array. -/
def marshalResponses : List UrlResult → String
  | [] => "null"
  | r :: rs =>
    "[" ++ marshalUrlResult r
        ++ String.join (rs.map (fun x => "," ++ marshalUrlResult x)) ++ "]"

/-- `json.Marshal` of `ResultToUser` (fields in declaration order, Go
struct tags `error` and `responses`). -/
def marshalResultToUser (res : ResultToUser) : String :=
  "\x7b\"error\":" ++ jsonString res.Error ++ ",\"responses\":"
    ++ marshalResponses res.Responses ++ "\x7d"

/-! ## Fetcher (`RequestUrl`) -/

/-- Outcome of `client.Get(url)` when the transport succeeds: the HTTP
status code and the result of `ioutil.ReadAll(resp.Body)` (bytes read so
far, plus the read error if any). -/
structure HttpGetOk where
  status : Nat
  readAll : List Nat × Option String
deriving DecidableEq, Repr

/-- `RequestUrl`: performs one GET through the abstract transport `get`.
On transport error it returns empty bytes with the error; otherwise it
returns `ioutil.ReadAll(resp.Body)` unchanged — the status code of the
response is never consulted. -/
def RequestUrl (get : String → Except String HttpGetOk) (url : String) :
    List Nat × Option String :=
  match get url with
  | Except.error e => ([], some e)
  | Except.ok resp => resp.readAll

/-! ## Dispatcher (`QueryUrls`) and its workers -/

/-- What a worker's `select` yields at one iteration of its loop: a task
drawn from the `tasks` channel, the observation that `tasks` is closed and
drained, or the `quit` channel firing. -/
inductive WorkerEvent where
  | drawTask (t : String)
  | drawClosed
  | quitFired
deriving DecidableEq, Repr

/-- The tasks a worker actually draws: the longest prefix of its schedule
consisting of `drawTask` events — a `drawClosed` or `quitFired` makes the
worker return at once, drawing nothing further. -/
def tasksDrawn : List WorkerEvent → List String
  | [] => []
  | WorkerEvent.drawTask t :: rest => t :: tasksDrawn rest
  | WorkerEvent.drawClosed :: _ => []
  | WorkerEvent.quitFired :: _ => []

/-- One worker goroutine of `QueryUrls`: loop on the schedule; a drawn task
is fetched (`fetch` abstracts `RequestUrl`) and exactly one `UrlResult` is
pushed to `out`; a closed task channel or the quit signal ends the loop. -/
def workerRun (fetch : String → List Nat × Option String) :
    List WorkerEvent → List UrlResult
  | [] => []
  | WorkerEvent.drawTask t :: rest =>
    { url := t, response := (fetch t).1, error := (fetch t).2 } :: workerRun fetch rest
  | WorkerEvent.drawClosed :: _ => []
  | WorkerEvent.quitFired :: _ => []

/-- `QueryUrls`: spawns `workersCount` worker goroutines over the shared
task queue; `schedules i` is the sequence of select outcomes worker `i`
experiences. The value is the per-worker streams of results pushed to
`out`. -/
def QueryUrls (fetch : String → List Nat × Option String) (workersCount : Nat)
    (schedules : Nat → List WorkerEvent) : List (List UrlResult) :=
  (List.range workersCount).map fun i => workerRun fetch (schedules i)

/-- Total number of fetches performed by the dispatcher's workers: one per
task drawn. -/
def fetchCallCount (workersCount : Nat) (schedules : Nat → List WorkerEvent) : Nat :=
  ((List.range workersCount).map fun i => (tasksDrawn (schedules i)).length).sum

/-- `workersCount` as computed by `Handle`: `MaxSimultaneousUrlRequests`,
lowered to `len(urls)` when the request has fewer urls. -/
def workersCountFor (n : Nat) : Nat :=
  if n < MaxSimultaneousUrlRequests then n else MaxSimultaneousUrlRequests

/-! ## Request coordinator (`Handle`) -/

/-- What the coordinator's select loop receives at one iteration: a
`UrlResult` from the `pipeline` channel, or the client-disconnect
notification (`connectionClose`). -/
inductive CollectEvent where
  | outcome (r : UrlResult)
  | disconnect
deriving DecidableEq, Repr

/-- State threaded through the collection loop of `Handle`: the
accumulating `results`, the `needToSend` flag, and whether `close(quit)`
has been executed. -/
structure CollectState where
  results : ResultToUser
  needToSend : Bool
  quitClosed : Bool
deriving DecidableEq, Repr

/-- The collection loop of `Handle` (`for i := 0; i < len(urls); i++` with
the three-way select): a disconnect closes `quit`, clears `needToSend` and
breaks; a failed result closes `quit`, overwrites the aggregate with the
error and nil responses and breaks; a successful result is appended and
the loop continues. -/
def collectLoop : Nat → List CollectEvent → CollectState → CollectState
  | 0, _, st => st
  | _ + 1, [], st => st
  | _ + 1, CollectEvent.disconnect :: _, st =>
    { st with needToSend := false, quitClosed := true }
  | n + 1, CollectEvent.outcome r :: rest, st =>
    match r.error with
    | some msg =>
      { st with results := { Error := msg, Responses := [] }, quitClosed := true }
    | none =>
      collectLoop n rest
        { st with results :=
            { st.results with Responses := st.results.Responses ++ [r] } }

/-- What `Handle` writes to the `http.ResponseWriter`. -/
inductive Sent where
  | httpError (code : Nat) (msg : String)
  | body (status : Nat) (payload : String)
  | nothing
deriving DecidableEq, Repr

/-- Observable outcome of one run of `Handle`: what was written back,
whether `go QueryUrls` was started, and how many fetcher invocations the
request caused. -/
structure HandleResult where
  sent : Sent
  dispatched : Bool
  fetchCalls : Nat
deriving DecidableEq, Repr

/-- `Handle`: the POST handler. `method`, `bodyOk` (did `ReadAll(r.Body)`
succeed), `jsonOk` (did `json.Unmarshal` succeed) and `urls` abstract the
external pre-stages; `schedules` are the worker select schedules and
`events` the coordinator's select outcomes. Early returns reject before
any dispatch; otherwise the dispatcher is started, the collection loop
runs, and the aggregate is marshalled and written unless the client
disconnected. -/
def Handle (method : String)
    (bodyOk jsonOk : Bool) (urls : List String)
    (schedules : Nat → List WorkerEvent) (events : List CollectEvent) :
    HandleResult :=
  if method ≠ "POST" then
    { sent := Sent.httpError 405 "Method Not Allowed", dispatched := false, fetchCalls := 0 }
  else if ¬ bodyOk then
    { sent := Sent.httpError 400 "Could not read body", dispatched := false, fetchCalls := 0 }
  else if ¬ jsonOk then
    { sent := Sent.httpError 400 "Incorrect json in request", dispatched := false, fetchCalls := 0 }
  else if urls.length > MaxUrlCount then
    { sent := Sent.httpError 400 "Maximum allowed urls in one request is 20",
      dispatched := false, fetchCalls := 0 }
  else
    let st := collectLoop urls.length events
      { results := { Error := "", Responses := [] }, needToSend := true, quitClosed := false }
    { sent := if st.needToSend then Sent.body 200 (marshalResultToUser st.results)
              else Sent.nothing,
      dispatched := true,
      fetchCalls := fetchCallCount (workersCountFor urls.length) schedules }

/-- The `UrlResult` a worker produces for url `u` under fetcher `fetch`. -/
def outcomeOf (fetch : String → List Nat × Option String) (u : String) : UrlResult :=
  { url := u, response := (fetch u).1, error := (fetch u).2 }

/-! ## Admission gate (`HandleConnection`) -/

/-- The case Go's `select` commits to when several are ready. -/
inductive GateBranch where
  | shutdownBr
  | slotBr
deriving DecidableEq, Repr

/-- Observable outcome of the admission gate for one request. -/
inductive GateOutcome where
  | rejected (code : Nat)
  | served
  | blocked
deriving DecidableEq, Repr

/-- Result of `HandleConnection`'s closure for one request:
the outcome, the slot count while the wrapped handler runs, and the slot
count after the deferred release. -/
structure GateResult where
  outcome : GateOutcome
  slotsDuringHandler : Nat
  slotsAfter : Nat
deriving DecidableEq, Repr

/-- `HandleConnection`: the per-request select between the closed
`shutdown` channel and a send on the `limiter` semaphore channel
(capacity `MaxSimultaneousClients`). When both cases are ready Go picks
one at random — modelled by `pick`; when neither is ready the request
blocks. Serving acquires a slot and the `defer` releases it on exit. -/
def HandleConnection (shutdownClosed : Bool) (slotsInUse : Nat)
    (pick : GateBranch) : GateResult :=
  if shutdownClosed ∧ slotsInUse < MaxSimultaneousClients then
    match pick with
    | GateBranch.shutdownBr =>
      { outcome := GateOutcome.rejected 500, slotsDuringHandler := slotsInUse,
        slotsAfter := slotsInUse }
    | GateBranch.slotBr =>
      { outcome := GateOutcome.served, slotsDuringHandler := slotsInUse + 1,
        slotsAfter := slotsInUse }
  else if shutdownClosed then
    { outcome := GateOutcome.rejected 500, slotsDuringHandler := slotsInUse,
      slotsAfter := slotsInUse }
  else if slotsInUse < MaxSimultaneousClients then
    { outcome := GateOutcome.served, slotsDuringHandler := slotsInUse + 1,
      slotsAfter := slotsInUse }
  else
    { outcome := GateOutcome.blocked, slotsDuringHandler := slotsInUse,
      slotsAfter := slotsInUse }

/-! ## Join structure of one request (for the no-leak guarantee) -/

/-- Abstract state of one request's goroutines: remaining queued tasks,
the `quit` flag, the number of worker goroutines still running, the number
of results emitted, and whether `QueryUrls` (`wg.Wait`) and `Handle`
(`wait.Wait`) have returned. -/
structure DState where
  tasks : Nat
  quitClosed : Bool
  running : Nat
  emitted : Nat
  dispatcherDone : Bool
  handlerDone : Bool
deriving DecidableEq, Repr

/-- Interleaved small steps of one request: a running worker draws a task,
fetches and emits a result; a worker exits when the task queue is drained
(closed) or `quit` has fired; the coordinator may close `quit`;
`QueryUrls` returns only once `wg.Wait` sees no running worker; `Handle`
passes `wait.Wait` only once `QueryUrls`'s deferred `parentWg.Done` has
run. -/
inductive DStep : DState → DState → Prop where
  | drawTask : ∀ s : DState, 0 < s.running → 0 < s.tasks →
      DStep s { s with tasks := s.tasks - 1, emitted := s.emitted + 1 }
  | workerExit : ∀ s : DState, 0 < s.running →
      (s.tasks = 0 ∨ s.quitClosed = true) →
      DStep s { s with running := s.running - 1 }
  | raiseQuit : ∀ s : DState, s.quitClosed = false →
      DStep s { s with quitClosed := true }
  | dispatcherReturn : ∀ s : DState, s.running = 0 → s.dispatcherDone = false →
      DStep s { s with dispatcherDone := true }
  | handlerReturn : ∀ s : DState, s.dispatcherDone = true → s.handlerDone = false →
      DStep s { s with handlerDone := true }

/-- Initial state of a request with `n` queued tasks and `w` spawned
workers. -/
def initDState (n w : Nat) : DState :=
  { tasks := n, quitClosed := false, running := w, emitted := 0,
    dispatcherDone := false, handlerDone := false }

/-- States reachable by interleaving request steps. -/
def DReachable (s s' : DState) : Prop := Relation.ReflTransGen DStep s s'

/-- The `UrlResult`s carried by a list of collect events. -/
def eventResults : List CollectEvent → List UrlResult
  | [] => []
  | CollectEvent.outcome r :: rest => r :: eventResults rest
  | CollectEvent.disconnect :: rest => eventResults rest

/-- A fetcher returning fixed deterministic payloads for two urls (the
mock of the spec's idempotence scenario). -/
def fetchAB : String → List Nat × Option String :=
  fun u => if u = "http://a" then ([65], none) else ([66], none)

/-! ## Lemmas about the collection loop -/

theorem eventResults_map (rs : List UrlResult) :
    eventResults (rs.map CollectEvent.outcome) = rs := by
  induction rs with
  | nil => rfl
  | cons r rest ih => simp [eventResults, ih]

theorem collectLoop_success (events : List CollectEvent) :
    ∀ (n : Nat) (st : CollectState), events.length ≤ n →
    (∀ ev ∈ events, ∃ r, ev = CollectEvent.outcome r ∧ r.error = none) →
    collectLoop n events st =
      { st with results := { st.results with
          Responses := st.results.Responses ++ eventResults events } } := by
  induction events with
  | nil =>
    intro n st _ _
    cases n <;> simp [collectLoop, eventResults]
  | cons ev rest ih =>
    intro n st hlen hall
    obtain ⟨r, hev, herr⟩ := hall ev (List.mem_cons_self ev rest)
    subst hev
    cases n with
    | zero => simp at hlen
    | succ m =>
      simp only [collectLoop, herr]
      rw [ih m _ (by simpa using hlen)
        (fun e he => hall e (List.mem_cons_of_mem _ he))]
      simp [eventResults]

theorem collectLoop_first_failure (events : List CollectEvent) :
    ∀ (n i : Nat) (st : CollectState) (r : UrlResult) (msg : String),
    i < n →
    events[i]? = some (CollectEvent.outcome r) →
    r.error = some msg →
    (∀ j, j < i → ∃ q, events[j]? = some (CollectEvent.outcome q) ∧ q.error = none) →
    collectLoop n events st =
      { results := { Error := msg, Responses := [] },
        needToSend := st.needToSend, quitClosed := true } := by
  induction events with
  | nil => intro n i st r msg _ hget _ _; simp at hget
  | cons ev rest ih =>
    intro n i st r msg hin hget herr hpre
    cases n with
    | zero => omega
    | succ m =>
      cases i with
      | zero =>
        simp only [List.getElem?_cons_zero, Option.some_inj] at hget
        subst hget
        simp [collectLoop, herr]
      | succ j =>
        obtain ⟨q, hq, hqe⟩ := hpre 0 (Nat.succ_pos j)
        simp only [List.getElem?_cons_zero, Option.some_inj] at hq
        subst hq
        simp only [collectLoop, hqe]
        exact ih m j _ r msg (by omega) (by simpa using hget) herr
          (fun k hk => by simpa using hpre (k + 1) (by omega))

theorem collectLoop_disconnect (events : List CollectEvent) :
    ∀ (n i : Nat) (st : CollectState),
    i < n →
    events[i]? = some CollectEvent.disconnect →
    (∀ j, j < i → ∃ q, events[j]? = some (CollectEvent.outcome q) ∧ q.error = none) →
    (collectLoop n events st).needToSend = false ∧
      (collectLoop n events st).quitClosed = true := by
  induction events with
  | nil => intro n i st _ hget _; simp at hget
  | cons ev rest ih =>
    intro n i st hin hget hpre
    cases n with
    | zero => omega
    | succ m =>
      cases i with
      | zero =>
        simp only [List.getElem?_cons_zero, Option.some_inj] at hget
        subst hget
        simp [collectLoop]
      | succ j =>
        obtain ⟨q, hq, hqe⟩ := hpre 0 (Nat.succ_pos j)
        simp only [List.getElem?_cons_zero, Option.some_inj] at hq
        subst hq
        simp only [collectLoop, hqe]
        exact ih m j _ (by omega) (by simpa using hget)
          (fun k hk => by simpa using hpre (k + 1) (by omega))

theorem workerRun_eq_map (fetch : String → List Nat × Option String) :
    ∀ evs : List WorkerEvent,
    workerRun fetch evs = (tasksDrawn evs).map (outcomeOf fetch) := by
  intro evs
  induction evs with
  | nil => rfl
  | cons ev rest ih => cases ev <;> simp [workerRun, tasksDrawn, outcomeOf, ih]

theorem handle_dispatch_sent (urls : List String)
    (schedules : Nat → List WorkerEvent) (events : List CollectEvent)
    (hlen : urls.length ≤ MaxUrlCount) :
    (Handle "POST" true true urls schedules events).sent =
      (if (collectLoop urls.length events
            ⟨⟨"", []⟩, true, false⟩).needToSend then
        Sent.body 200 (marshalResultToUser (collectLoop urls.length events
          ⟨⟨"", []⟩, true, false⟩).results)
      else Sent.nothing) := by
  have hgt : ¬ urls.length > MaxUrlCount := by omega
  simp [Handle, hgt]

/-! ## Claim theorems -/

/-- C1: whenever a fetch failure is the first non-success event observed by
the coordinator (no disconnect and only successful results before it), the
final aggregate is the failure state: its error is the failing fetch's
error text, its responses are nil (every previously buffered success is
discarded), and the handler sends exactly the failure JSON — partial
success is never reported. -/
theorem handle_failure_discards_successes
    (urls : List String) (schedules : Nat → List WorkerEvent)
    (events : List CollectEvent) (i : Nat) (r : UrlResult) (msg : String)
    (hmax : urls.length ≤ MaxUrlCount)
    (hin : i < urls.length)
    (hget : events[i]? = some (CollectEvent.outcome r))
    (herr : r.error = some msg)
    (hpre : ∀ j, j < i → ∃ q, events[j]? = some (CollectEvent.outcome q) ∧
      q.error = none) :
    collectLoop urls.length events ⟨⟨"", []⟩, true, false⟩ =
      ⟨⟨msg, []⟩, true, true⟩ ∧
    (Handle "POST" true true urls schedules events).sent =
      Sent.body 200 (marshalResultToUser ⟨msg, []⟩) := by
  have hcl := collectLoop_first_failure events urls.length i
    ⟨⟨"", []⟩, true, false⟩ r msg hin hget herr hpre
  refine ⟨hcl, ?_⟩
  rw [handle_dispatch_sent urls schedules events hmax, hcl]
  simp

/-- C1 witness: a three-url request whose second observed event is a
"timeout" failure ends in the failure state with the buffered first
success discarded. -/
theorem handle_failure_discards_successes_witness :
    collectLoop 3
      [CollectEvent.outcome ⟨"http://a", [65], none⟩,
       CollectEvent.outcome ⟨"http://b", [], some "timeout"⟩,
       CollectEvent.outcome ⟨"http://c", [67], none⟩]
      ⟨⟨"", []⟩, true, false⟩ = ⟨⟨"timeout", []⟩, true, true⟩ ∧
    (Handle "POST" true true ["http://a", "http://b", "http://c"]
      (fun _ => [])
      [CollectEvent.outcome ⟨"http://a", [65], none⟩,
       CollectEvent.outcome ⟨"http://b", [], some "timeout"⟩,
       CollectEvent.outcome ⟨"http://c", [67], none⟩]).sent =
      Sent.body 200 (marshalResultToUser ⟨"timeout", []⟩) :=
  handle_failure_discards_successes
    ["http://a", "http://b", "http://c"] (fun _ => [])
    [CollectEvent.outcome ⟨"http://a", [65], none⟩,
     CollectEvent.outcome ⟨"http://b", [], some "timeout"⟩,
     CollectEvent.outcome ⟨"http://c", [67], none⟩]
    1 ⟨"http://b", [], some "timeout"⟩ "timeout"
    (by decide) (by decide) (by decide) (by decide)
    (by
      intro j hj
      have hj0 : j = 0 := by omega
      subst hj0
      exact ⟨⟨"http://a", [65], none⟩, rfl, rfl⟩)

/-- C2: a request with more than `MaxUrlCount` urls is rejected with HTTP
400 before any fetch work: the dispatcher is never started and the fetch
call count is zero. -/
theorem handle_rejects_oversize_request
    (urls : List String) (schedules : Nat → List WorkerEvent)
    (events : List CollectEvent)
    (hlen : urls.length > MaxUrlCount) :
    Handle "POST" true true urls schedules events =
      { sent := Sent.httpError 400 "Maximum allowed urls in one request is 20",
        dispatched := false, fetchCalls := 0 } := by
  simp [Handle, hlen]

/-- C2 witness: a request with 21 urls is rejected with 400 and zero
fetches. -/
theorem handle_rejects_oversize_request_witness :
    Handle "POST" true true (List.replicate 21 "http://a") (fun _ => []) [] =
      { sent := Sent.httpError 400 "Maximum allowed urls in one request is 20",
        dispatched := false, fetchCalls := 0 } :=
  handle_rejects_oversize_request (List.replicate 21 "http://a")
    (fun _ => []) [] (by decide)

/-- C3: for a request with `0 < n ≤ 20` urls whose fetches all succeed and
whose results arrive in any order, the final aggregate has an empty error,
exactly `n` responses, the multiset of response urls equals the multiset of
request urls, and the handler sends that aggregate. -/
theorem handle_all_success
    (fetch : String → List Nat × Option String) (urls : List String)
    (results : List UrlResult) (schedules : Nat → List WorkerEvent)
    (hpos : 0 < urls.length) (hmax : urls.length ≤ MaxUrlCount)
    (hperm : results.Perm (urls.map (outcomeOf fetch)))
    (hok : ∀ u ∈ urls, (fetch u).2 = none) :
    collectLoop urls.length (results.map CollectEvent.outcome)
      ⟨⟨"", []⟩, true, false⟩ = ⟨⟨"", results⟩, true, false⟩ ∧
    results.length = urls.length ∧
    (results.map UrlResult.url).Perm urls ∧
    (Handle "POST" true true urls schedules
      (results.map CollectEvent.outcome)).sent =
      Sent.body 200 (marshalResultToUser ⟨"", results⟩) := by
  have hlen : results.length = urls.length := by
    simpa using hperm.length_eq
  have hall : ∀ ev ∈ results.map CollectEvent.outcome,
      ∃ r, ev = CollectEvent.outcome r ∧ r.error = none := by
    intro ev hev
    obtain ⟨r, hr, hev⟩ := List.mem_map.mp hev
    refine ⟨r, hev.symm, ?_⟩
    have hr' : r ∈ urls.map (outcomeOf fetch) := hperm.mem_iff.mp hr
    obtain ⟨u, hu, hru⟩ := List.mem_map.mp hr'
    rw [← hru]
    simpa [outcomeOf] using hok u hu
  have hcl := collectLoop_success (results.map CollectEvent.outcome)
    urls.length ⟨⟨"", []⟩, true, false⟩ (by simp [hlen]) hall
  rw [eventResults_map] at hcl
  have hurls : (urls.map (outcomeOf fetch)).map UrlResult.url = urls := by
    rw [List.map_map]
    have hcomp : (UrlResult.url ∘ outcomeOf fetch) = id := funext fun u => rfl
    rw [hcomp, List.map_id]
  have hpermu : (results.map UrlResult.url).Perm urls := by
    have := hperm.map UrlResult.url
    rwa [hurls] at this
  refine ⟨by simpa using hcl, hlen, hpermu, ?_⟩
  rw [handle_dispatch_sent urls schedules _ hmax, hcl]
  simp

/-- C3 witness: the spec's concrete scenario with three urls and payloads
`A`, `B`, `C` arriving out of order. -/
theorem handle_all_success_witness :
    collectLoop 3
      ([⟨"http://b", [66], none⟩, ⟨"http://a", [65], none⟩,
        ⟨"http://c", [67], none⟩].map CollectEvent.outcome)
      ⟨⟨"", []⟩, true, false⟩ =
      ⟨⟨"", [⟨"http://b", [66], none⟩, ⟨"http://a", [65], none⟩,
        ⟨"http://c", [67], none⟩]⟩, true, false⟩ ∧
    ([⟨"http://b", [66], none⟩, ⟨"http://a", [65], none⟩,
      ⟨"http://c", [67], none⟩] : List UrlResult).length = 3 ∧
    (([⟨"http://b", [66], none⟩, ⟨"http://a", [65], none⟩,
      ⟨"http://c", [67], none⟩] : List UrlResult).map UrlResult.url).Perm
      ["http://a", "http://b", "http://c"] ∧
    (Handle "POST" true true ["http://a", "http://b", "http://c"]
      (fun _ => [])
      ([⟨"http://b", [66], none⟩, ⟨"http://a", [65], none⟩,
        ⟨"http://c", [67], none⟩].map CollectEvent.outcome)).sent =
      Sent.body 200 (marshalResultToUser
        ⟨"", [⟨"http://b", [66], none⟩, ⟨"http://a", [65], none⟩,
          ⟨"http://c", [67], none⟩]⟩) :=
  handle_all_success
    (fun u => if u = "http://a" then ([65], none)
      else if u = "http://b" then ([66], none) else ([67], none))
    ["http://a", "http://b", "http://c"]
    [⟨"http://b", [66], none⟩, ⟨"http://a", [65], none⟩,
     ⟨"http://c", [67], none⟩]
    (fun _ => []) (by decide) (by decide) (by decide) (by decide)

/-- C4: for a non-empty url list the dispatcher spawns exactly
`min(MaxSimultaneousUrlRequests, len(urls))` workers, and every worker maps
the tasks it draws one-to-one through the fetcher: one fetch invocation and
one emitted `UrlResult` per drawn task, drawing nothing after a closed
queue or the quit signal. -/
theorem queryUrls_worker_pool
    (fetch : String → List Nat × Option String) (urls : List String)
    (schedules : Nat → List WorkerEvent)
    (hpos : 0 < urls.length) :
    (QueryUrls fetch (workersCountFor urls.length) schedules).length =
      min MaxSimultaneousUrlRequests urls.length ∧
    ∀ evs : List WorkerEvent,
      workerRun fetch evs = (tasksDrawn evs).map (outcomeOf fetch) ∧
      (workerRun fetch evs).length = (tasksDrawn evs).length := by
  constructor
  · have hw : workersCountFor urls.length =
        min MaxSimultaneousUrlRequests urls.length := by
      unfold workersCountFor MaxSimultaneousUrlRequests
      rcases Nat.lt_or_ge urls.length 4 with h | h
      · simp [h, Nat.min_eq_right (Nat.le_of_lt h)]
      · simp [Nat.not_lt.mpr h, Nat.min_eq_left h]
    simp [QueryUrls, hw]
  · intro evs
    refine ⟨workerRun_eq_map fetch evs, ?_⟩
    rw [workerRun_eq_map fetch evs, List.length_map]

/-- C4 witness: one url gives one worker, and a worker that draws one task
and then sees the queue closed emits exactly that task's outcome. -/
theorem queryUrls_worker_pool_witness :
    (QueryUrls fetchAB (workersCountFor (["http://a"].length))
      (fun _ => [])).length = min MaxSimultaneousUrlRequests 1 ∧
    (workerRun fetchAB [WorkerEvent.drawTask "http://a", WorkerEvent.drawClosed] =
      (tasksDrawn [WorkerEvent.drawTask "http://a", WorkerEvent.drawClosed]).map
        (outcomeOf fetchAB) ∧
    (workerRun fetchAB
      [WorkerEvent.drawTask "http://a", WorkerEvent.drawClosed]).length =
      (tasksDrawn [WorkerEvent.drawTask "http://a", WorkerEvent.drawClosed]).length) :=
  ⟨(queryUrls_worker_pool fetchAB ["http://a"] (fun _ => []) (by decide)).1,
   (queryUrls_worker_pool fetchAB ["http://a"] (fun _ => []) (by decide)).2
     [WorkerEvent.drawTask "http://a", WorkerEvent.drawClosed]⟩

/-- C5 counterexample: the same request `["http://a","http://b"]` against
the fixed deterministic fetcher `fetchAB`, run twice with the two legal
arrival orders of the two successful results, produces two serialized
bodies that are not byte-identical — responses are serialized in arrival
order, which the code does not fix. -/
theorem handle_two_runs_differ :
    ([⟨"http://a", [65], none⟩, ⟨"http://b", [66], none⟩] :
      List UrlResult).Perm
      (["http://a", "http://b"].map (outcomeOf fetchAB)) ∧
    ([⟨"http://b", [66], none⟩, ⟨"http://a", [65], none⟩] :
      List UrlResult).Perm
      (["http://a", "http://b"].map (outcomeOf fetchAB)) ∧
    (Handle "POST" true true ["http://a", "http://b"] (fun _ => [])
      ([⟨"http://a", [65], none⟩, ⟨"http://b", [66], none⟩].map
        CollectEvent.outcome)).sent ≠
    (Handle "POST" true true ["http://a", "http://b"] (fun _ => [])
      ([⟨"http://b", [66], none⟩, ⟨"http://a", [65], none⟩].map
        CollectEvent.outcome)).sent := by
  refine ⟨by decide, by decide, by decide⟩

/-- C5 (amended): the response is a deterministic function of the request,
the per-url fetch results, and the arrival order: runs with the same
arrival order give the same output, and any two all-success runs agree on
the error field and have responses equal as multisets (set-equal bodies,
byte-identical only when arrival orders coincide). -/
theorem handle_deterministic_up_to_arrival
    (fetch : String → List Nat × Option String) (urls : List String)
    (results₁ results₂ : List UrlResult) (schedules : Nat → List WorkerEvent)
    (hmax : urls.length ≤ MaxUrlCount)
    (hperm₁ : results₁.Perm (urls.map (outcomeOf fetch)))
    (hperm₂ : results₂.Perm (urls.map (outcomeOf fetch)))
    (hok : ∀ u ∈ urls, (fetch u).2 = none) :
    (results₁ = results₂ →
      Handle "POST" true true urls schedules
        (results₁.map CollectEvent.outcome) =
      Handle "POST" true true urls schedules
        (results₂.map CollectEvent.outcome)) ∧
    (collectLoop urls.length (results₁.map CollectEvent.outcome)
        ⟨⟨"", []⟩, true, false⟩).results.Error =
      (collectLoop urls.length (results₂.map CollectEvent.outcome)
        ⟨⟨"", []⟩, true, false⟩).results.Error ∧
    ((collectLoop urls.length (results₁.map CollectEvent.outcome)
        ⟨⟨"", []⟩, true, false⟩).results.Responses).Perm
      ((collectLoop urls.length (results₂.map CollectEvent.outcome)
        ⟨⟨"", []⟩, true, false⟩).results.Responses) := by
  have hall : ∀ (rs : List UrlResult),
      rs.Perm (urls.map (outcomeOf fetch)) →
      ∀ ev ∈ rs.map CollectEvent.outcome,
      ∃ r, ev = CollectEvent.outcome r ∧ r.error = none := by
    intro rs hperm ev hev
    obtain ⟨r, hr, hev⟩ := List.mem_map.mp hev
    refine ⟨r, hev.symm, ?_⟩
    have hr' : r ∈ urls.map (outcomeOf fetch) := hperm.mem_iff.mp hr
    obtain ⟨u, hu, hru⟩ := List.mem_map.mp hr'
    rw [← hru]
    simpa [outcomeOf] using hok u hu
  have hcl₁ := collectLoop_success (results₁.map CollectEvent.outcome)
    urls.length ⟨⟨"", []⟩, true, false⟩
    (by simp [hperm₁.length_eq]) (hall results₁ hperm₁)
  have hcl₂ := collectLoop_success (results₂.map CollectEvent.outcome)
    urls.length ⟨⟨"", []⟩, true, false⟩
    (by simp [hperm₂.length_eq]) (hall results₂ hperm₂)
  rw [eventResults_map] at hcl₁ hcl₂
  refine ⟨fun heq => by rw [heq], ?_, ?_⟩
  · rw [hcl₁, hcl₂]
  · rw [hcl₁, hcl₂]
    simpa using hperm₁.trans hperm₂.symm

/-- C5 (amended) witness: the two arrival orders of the counterexample
agree on the error field and have permutation-equal responses. -/
theorem handle_deterministic_up_to_arrival_witness :
    (([⟨"http://a", [65], none⟩, ⟨"http://b", [66], none⟩] :
        List UrlResult) =
      [⟨"http://b", [66], none⟩, ⟨"http://a", [65], none⟩] →
      Handle "POST" true true ["http://a", "http://b"] (fun _ => [])
        ([⟨"http://a", [65], none⟩, ⟨"http://b", [66], none⟩].map
          CollectEvent.outcome) =
      Handle "POST" true true ["http://a", "http://b"] (fun _ => [])
        ([⟨"http://b", [66], none⟩, ⟨"http://a", [65], none⟩].map
          CollectEvent.outcome)) ∧
    (collectLoop 2
        ([⟨"http://a", [65], none⟩, ⟨"http://b", [66], none⟩].map
          CollectEvent.outcome) ⟨⟨"", []⟩, true, false⟩).results.Error =
      (collectLoop 2
        ([⟨"http://b", [66], none⟩, ⟨"http://a", [65], none⟩].map
          CollectEvent.outcome) ⟨⟨"", []⟩, true, false⟩).results.Error ∧
    ((collectLoop 2
        ([⟨"http://a", [65], none⟩, ⟨"http://b", [66], none⟩].map
          CollectEvent.outcome) ⟨⟨"", []⟩, true, false⟩).results.Responses).Perm
      ((collectLoop 2
        ([⟨"http://b", [66], none⟩, ⟨"http://a", [65], none⟩].map
          CollectEvent.outcome) ⟨⟨"", []⟩, true, false⟩).results.Responses) :=
  handle_deterministic_up_to_arrival fetchAB ["http://a", "http://b"]
    [⟨"http://a", [65], none⟩, ⟨"http://b", [66], none⟩]
    [⟨"http://b", [66], none⟩, ⟨"http://a", [65], none⟩]
    (fun _ => []) (by decide) (by decide) (by decide) (by decide)

/-- C6 counterexample: when the shutdown signal has already been raised
and a slot is free, Go's `select` may commit to the semaphore send: the
request is served (consuming a slot for the handler's duration) instead of
being rejected, so rejection under raised shutdown is not guaranteed. -/
theorem handleConnection_shutdown_may_serve :
    HandleConnection true 0 GateBranch.slotBr =
      { outcome := GateOutcome.served, slotsDuringHandler := 1,
        slotsAfter := 0 } ∧
    (HandleConnection true 0 GateBranch.slotBr).outcome ≠
      GateOutcome.rejected 500 := by
  refine ⟨by decide, by decide⟩

/-- C6 (amended): the gate races shutdown against slot acquisition. If
shutdown has been raised it is rejected with a 500 and no slot change
whenever the race resolves to the shutdown branch or all slots are
occupied (when both cases are ready either may win); a served request
holds exactly one extra slot while the wrapped handler runs and the slot
is released on exit; without shutdown, a request is served when a slot is
free and blocks — is never dropped — when all
`MaxSimultaneousClients` slots are momentarily occupied. -/
theorem handleConnection_gate_behaviour
    (sd : Bool) (slots : Nat) (pick : GateBranch) :
    (sd = true → (pick = GateBranch.shutdownBr ∨ MaxSimultaneousClients ≤ slots) →
      HandleConnection sd slots pick =
        { outcome := GateOutcome.rejected 500, slotsDuringHandler := slots,
          slotsAfter := slots }) ∧
    ((HandleConnection sd slots pick).outcome = GateOutcome.served →
      (HandleConnection sd slots pick).slotsDuringHandler = slots + 1 ∧
      (HandleConnection sd slots pick).slotsAfter = slots) ∧
    (sd = false → slots < MaxSimultaneousClients →
      (HandleConnection sd slots pick).outcome = GateOutcome.served) ∧
    (sd = false → MaxSimultaneousClients ≤ slots →
      (HandleConnection sd slots pick).outcome = GateOutcome.blocked ∧
      (HandleConnection sd slots pick).outcome ≠ GateOutcome.rejected 500) := by
  cases sd with
  | false =>
    rcases Nat.lt_or_ge slots MaxSimultaneousClients with h | h
    · simp [HandleConnection, h]
    · simp [HandleConnection, Nat.not_lt.mpr h, h]
  | true =>
    rcases Nat.lt_or_ge slots MaxSimultaneousClients with h | h
    · cases pick <;> simp [HandleConnection, h]
    · cases pick <;> simp [HandleConnection, Nat.not_lt.mpr h]

/-- C6 (amended) witness: with shutdown raised and all 100 slots busy the
request is rejected without touching the slots; without shutdown and a
free slot it is served. -/
theorem handleConnection_gate_behaviour_witness :
    HandleConnection true 100 GateBranch.slotBr =
      { outcome := GateOutcome.rejected 500, slotsDuringHandler := 100,
        slotsAfter := 100 } ∧
    (HandleConnection false 5 GateBranch.slotBr).outcome =
      GateOutcome.served :=
  ⟨(handleConnection_gate_behaviour true 100 GateBranch.slotBr).1 rfl
      (Or.inr (by decide)),
   (handleConnection_gate_behaviour false 5 GateBranch.slotBr).2.2.1 rfl
      (by decide)⟩

/-- Invariant of the request interleavings: a joined dispatcher has no
running worker, and a returned handler has a joined dispatcher. -/
theorem djoin_invariant (n w : Nat) (s : DState)
    (hreach : DReachable (initDState n w) s) :
    (s.dispatcherDone = true → s.running = 0) ∧
    (s.handlerDone = true → s.dispatcherDone = true) := by
  induction hreach with
  | refl =>
    constructor <;> intro hc <;> simp [initDState] at hc
  | tail hsteps hstep ih =>
    cases hstep with
    | drawTask h1 h2 => exact ⟨ih.1, ih.2⟩
    | workerExit h1 h2 =>
      refine ⟨fun hd => ?_, ih.2⟩
      have hr := ih.1 hd
      dsimp only
      omega
    | raiseQuit h1 => exact ⟨ih.1, ih.2⟩
    | dispatcherReturn h1 h2 => exact ⟨fun _ => h1, fun _ => rfl⟩
    | handlerReturn h1 h2 => exact ⟨ih.1, fun _ => h1⟩

/-- C7: in every interleaving of one request's steps, a state in which the
request handler has returned is one in which the dispatcher has fully
joined and zero worker goroutines are still running — `wg.Wait` gates
`QueryUrls`'s return on all workers having exited and `wait.Wait` gates
`Handle`'s return on `QueryUrls` having returned, on every outcome path. -/
theorem request_join_no_leak (n w : Nat) (s : DState)
    (hreach : DReachable (initDState n w) s)
    (hdone : s.handlerDone = true) :
    s.dispatcherDone = true ∧ s.running = 0 := by
  have key := djoin_invariant n w s hreach
  exact ⟨key.2 hdone, key.1 (key.2 hdone)⟩

/-- A complete interleaving of a one-url, one-worker request: draw and
fetch the task, worker exits on the closed queue, dispatcher joins,
handler returns. -/
theorem dreach_example : DReachable (initDState 1 1)
    ⟨0, false, 0, 1, true, true⟩ := by
  have h1 : DStep (initDState 1 1) ⟨0, false, 1, 1, false, false⟩ :=
    DStep.drawTask (initDState 1 1) (by decide) (by decide)
  have h2 : DStep (⟨0, false, 1, 1, false, false⟩ : DState)
      ⟨0, false, 0, 1, false, false⟩ :=
    DStep.workerExit ⟨0, false, 1, 1, false, false⟩ (by decide)
      (Or.inl (by decide))
  have h3 : DStep (⟨0, false, 0, 1, false, false⟩ : DState)
      ⟨0, false, 0, 1, true, false⟩ :=
    DStep.dispatcherReturn ⟨0, false, 0, 1, false, false⟩ (by decide)
      (by decide)
  have h4 : DStep (⟨0, false, 0, 1, true, false⟩ : DState)
      ⟨0, false, 0, 1, true, true⟩ :=
    DStep.handlerReturn ⟨0, false, 0, 1, true, false⟩ (by decide) (by decide)
  exact Relation.ReflTransGen.tail
    (Relation.ReflTransGen.tail
      (Relation.ReflTransGen.tail (Relation.ReflTransGen.single h1) h2) h3) h4

/-- C7 witness: at the end of the concrete one-url interleaving the
dispatcher has joined and no worker is running. -/
theorem request_join_no_leak_witness :
    (⟨0, false, 0, 1, true, true⟩ : DState).dispatcherDone = true ∧
    (⟨0, false, 0, 1, true, true⟩ : DState).running = 0 :=
  request_join_no_leak 1 1 ⟨0, false, 0, 1, true, true⟩ dreach_example rfl

/-- C8: when the client-disconnect event is observed before result
collection completes (only successful results precede it), the coordinator
closes the quit channel, clears `needToSend`, and the handler writes
nothing back — no body, header or error. -/
theorem handle_disconnect_sends_nothing
    (urls : List String) (schedules : Nat → List WorkerEvent)
    (events : List CollectEvent) (i : Nat)
    (hmax : urls.length ≤ MaxUrlCount)
    (hin : i < urls.length)
    (hget : events[i]? = some CollectEvent.disconnect)
    (hpre : ∀ j, j < i → ∃ q, events[j]? = some (CollectEvent.outcome q) ∧
      q.error = none) :
    (collectLoop urls.length events ⟨⟨"", []⟩, true, false⟩).needToSend =
      false ∧
    (collectLoop urls.length events ⟨⟨"", []⟩, true, false⟩).quitClosed =
      true ∧
    (Handle "POST" true true urls schedules events).sent = Sent.nothing := by
  obtain ⟨hns, hq⟩ := collectLoop_disconnect events urls.length i
    ⟨⟨"", []⟩, true, false⟩ hin hget hpre
  refine ⟨hns, hq, ?_⟩
  rw [handle_dispatch_sent urls schedules events hmax, hns]
  simp

/-- C8 witness: a two-url request whose second observed event is the
disconnect ends with `quit` closed and nothing written. -/
theorem handle_disconnect_sends_nothing_witness :
    (collectLoop 2
      [CollectEvent.outcome ⟨"http://a", [65], none⟩, CollectEvent.disconnect]
      ⟨⟨"", []⟩, true, false⟩).needToSend = false ∧
    (collectLoop 2
      [CollectEvent.outcome ⟨"http://a", [65], none⟩, CollectEvent.disconnect]
      ⟨⟨"", []⟩, true, false⟩).quitClosed = true ∧
    (Handle "POST" true true ["http://a", "http://b"] (fun _ => [])
      [CollectEvent.outcome ⟨"http://a", [65], none⟩,
       CollectEvent.disconnect]).sent = Sent.nothing :=
  handle_disconnect_sends_nothing ["http://a", "http://b"] (fun _ => [])
    [CollectEvent.outcome ⟨"http://a", [65], none⟩, CollectEvent.disconnect]
    1 (by decide) (by decide) (by decide)
    (by
      intro j hj
      have hj0 : j = 0 := by omega
      subst hj0
      exact ⟨⟨"http://a", [65], none⟩, rfl, rfl⟩)

/-- C9: `RequestUrl` never inspects the HTTP status code — for any status
(2xx, 4xx, 5xx alike) it returns `ReadAll`'s result unchanged, so a
readable body yields the bytes with a nil error; a non-nil error arises
exactly on transport failure or on a body-read failure. -/
theorem requestUrl_ignores_status (url : String) (status status' : Nat)
    (rd : List Nat × Option String) (e : String)
    (get : String → Except String HttpGetOk) :
    RequestUrl (fun _ => Except.ok ⟨status, rd⟩) url = rd ∧
    RequestUrl (fun _ => Except.ok ⟨status, rd⟩) url =
      RequestUrl (fun _ => Except.ok ⟨status', rd⟩) url ∧
    RequestUrl (fun _ => Except.error e) url = ([], some e) ∧
    ((RequestUrl get url).2 = none ↔
      ∃ resp, get url = Except.ok resp ∧ resp.readAll.2 = none) := by
  refine ⟨rfl, rfl, rfl, ?_⟩
  cases hg : get url with
  | error err => simp [RequestUrl, hg]
  | ok resp => simp [RequestUrl, hg]

/-- C10: a valid POST whose urls array is empty (or absent, which
unmarshals to an empty slice) performs zero fetches and is answered with
status 200 and exactly the body `\x7b"error":"","responses":null\x7d` —
the same `null` responses shape as the failure state. -/
theorem handle_empty_urls (schedules : Nat → List WorkerEvent)
    (events : List CollectEvent) :
    Handle "POST" true true [] schedules events =
      { sent := Sent.body 200 "\x7b\"error\":\"\",\"responses\":null\x7d",
        dispatched := true, fetchCalls := 0 } := by
  rfl

end GoTestTask
